import Mathlib

/-!
Shallow embedding of the pricing engine of the DentalPricingCalculator
repository (src/modules/models.py, function calculate_service_price and the
data rows it reads).  Monetary quantities are modelled as rationals; Python's
builtin round (half to even) is modelled by pyRound.
-/

namespace DentalPricing

/-- Python's builtin round on a real value: nearest integer, ties to even. -/
def pyRound (q : ℚ) : ℤ :=
  let f : ℤ := ⌊q⌋
  let r : ℚ := q - f
  if r < 1/2 then f
  else if 1/2 < r then f + 1
  else if f % 2 = 0 then f else f + 1

/-- Python's round(x, 2): round to two decimal places, ties to even. -/
def round2 (q : ℚ) : ℚ := (pyRound (q * 100) : ℚ) / 100

/-- models.py: rounded_price = round(final_price / rounding) * rounding
if rounding > 0 else final_price. -/
def roundToIncrement (price rounding : ℚ) : ℚ :=
  if 0 < rounding then (pyRound (price / rounding) : ℚ) * rounding else price

/-- A fixed_costs row as read by calculate_service_price. -/
structure FixedCost where
  monthly_amount : ℚ
  included : Bool
deriving Repr, DecidableEq

/-- A salaries row as read by calculate_service_price. -/
structure Salary where
  monthly_salary : ℚ
  included : Bool
deriving Repr, DecidableEq

/-- Equipment allocation_type column: the code compares against the strings
"fixed" and "per-hour". -/
inductive AllocationType where
  | fixed
  | perHour
deriving Repr, DecidableEq

/-- An equipment row.  monthly_usage_hours is nullable in the schema, and the
code guards it with Python truthiness before dividing. -/
structure Equipment where
  id : Nat
  purchase_cost : ℚ
  life_years : ℚ
  allocation_type : AllocationType
  monthly_usage_hours : Option ℚ
deriving Repr, DecidableEq

/-- A service_consumables row joined with its consumables row
(pack_cost, cases_per_pack, units_per_case come from the joined consumable). -/
structure ServiceConsumable where
  pack_cost : ℚ
  cases_per_pack : ℚ
  units_per_case : ℚ
  custom_unit_price : Option ℚ
  quantity : ℚ
deriving Repr, DecidableEq

/-- A service_materials row joined with its lab_materials row. -/
structure ServiceMaterial where
  unit_cost : ℚ
  custom_unit_price : Option ℚ
  quantity : ℚ
deriving Repr, DecidableEq

/-- A service_equipment row. -/
structure ServiceEquipment where
  equipment_id : Nat
  hours_used : ℚ
deriving Repr, DecidableEq

/-- services.doctor_fee_type: the code tests for "hourly", then "fixed", and
treats anything else as the percentage mode. -/
inductive DoctorFeeType where
  | hourly
  | fixed
  | percentage
deriving Repr, DecidableEq

/-- A services row together with the joined consumable / material / equipment
line items attached by get_service_by_id. -/
structure Service where
  name : String
  chair_time_hours : ℚ
  doctor_fee_type : DoctorFeeType
  doctor_hourly_fee : ℚ
  doctor_fixed_fee : ℚ
  doctor_percentage : ℚ
  use_default_profit : Bool
  custom_profit_percent : ℚ
  equipment_id : Option Nat
  equipment_hours_used : Option ℚ
  equipment_list : List ServiceEquipment
  consumables : List ServiceConsumable
  materials : List ServiceMaterial
  current_price : Option ℚ
deriving Repr, DecidableEq

/-- The global_settings row fields read by calculate_service_price. -/
structure GlobalSettings where
  currency : String
  vat_percent : ℚ
  default_profit_percent : ℚ
  rounding_nearest : ℚ
deriving Repr, DecidableEq

/-- The clinic_capacity row fields read by calculate_service_price. -/
structure CapacitySettings where
  chairs : ℚ
  days_per_month : ℚ
  hours_per_day : ℚ
  utilization_percent : ℚ
deriving Repr, DecidableEq

/-- sum(c['monthly_amount'] for c in fixed_costs if c['included']). -/
def totalFixedIncluded (fixed_costs : List FixedCost) : ℚ :=
  ((fixed_costs.filter (fun c => c.included)).map (fun c => c.monthly_amount)).sum

/-- sum(s['monthly_salary'] for s in salaries if s['included']). -/
def totalSalariesIncluded (salaries : List Salary) : ℚ :=
  ((salaries.filter (fun s => s.included)).map (fun s => s.monthly_salary)).sum

/-- monthly_depreciation = eq['purchase_cost'] / (eq['life_years'] * 12). -/
def equipmentMonthlyDepreciation (eq : Equipment) : ℚ :=
  eq.purchase_cost / (eq.life_years * 12)

/-- The fixed_depreciation accumulation loop: every equipment row whose
allocation_type is "fixed" adds its monthly depreciation. -/
def fixedDepreciation (equipment_list : List Equipment) : ℚ :=
  ((equipment_list.filter (fun e => e.allocation_type = AllocationType.fixed)).map
    equipmentMonthlyDepreciation).sum

/-- effective_hours = chairs * days_per_month * hours_per_day *
(utilization_percent / 100). -/
def effectiveHours (capacity : CapacitySettings) : ℚ :=
  capacity.chairs * capacity.days_per_month * capacity.hours_per_day *
    (capacity.utilization_percent / 100)

/-- chair_hourly_rate = total_monthly_fixed / effective_hours
if effective_hours > 0 else 0. -/
def chairHourlyRate (total_monthly_fixed effective_hours : ℚ) : ℚ :=
  if 0 < effective_hours then total_monthly_fixed / effective_hours else 0

/-- Per-line cost of the per-hour equipment loop body: contributes only when
the row's equipment is "per-hour" allocated and its monthly_usage_hours is
truthy and positive, otherwise adds nothing. -/
def perHourLineCost (eq : Equipment) (hours_used : ℚ) : ℚ :=
  if eq.allocation_type = AllocationType.perHour then
    match eq.monthly_usage_hours with
    | some u => if 0 < u then equipmentMonthlyDepreciation eq / u * hours_used else 0
    | none => 0
  else 0

/-- next((e for e in equipment_list if e['id'] == se['equipment_id']), None). -/
def findEquipment (equipment_list : List Equipment) (eid : Nat) : Option Equipment :=
  equipment_list.find? (fun e => e.id == eid)

/-- Cost contributed by one service_equipment row in the loop over
service['equipment_list']. -/
def serviceEquipmentRowCost (equipment_list : List Equipment) (se : ServiceEquipment) : ℚ :=
  match findEquipment equipment_list se.equipment_id with
  | some eq => perHourLineCost eq se.hours_used
  | none => 0

/-- One iteration of the legacy single-equipment loop: on a row matching the
legacy equipment_id with "per-hour" allocation and positive truthy usage hours
it ASSIGNS (not adds) the cost; otherwise the accumulator is left unchanged. -/
def legacyEquipmentStep (eid : Nat) (hours_used : ℚ) (acc : ℚ) (eq : Equipment) : ℚ :=
  if eq.id = eid ∧ eq.allocation_type = AllocationType.perHour then
    match eq.monthly_usage_hours with
    | some u => if 0 < u then equipmentMonthlyDepreciation eq / u * hours_used else acc
    | none => acc
  else acc

/-- The legacy single-equipment loop over all equipment rows. -/
def legacyEquipmentCost (equipment_list : List Equipment) (eid : Nat) (hours_used : ℚ) : ℚ :=
  equipment_list.foldl (legacyEquipmentStep eid hours_used) 0

/-- Python truthiness of a nullable integer column (None and 0 are falsy). -/
def truthyOptNat : Option Nat → Bool
  | none => false
  | some n => n != 0

/-- Python truthiness of a nullable numeric column (None and 0 are falsy). -/
def truthyOptRat : Option ℚ → Bool
  | none => false
  | some q => q != 0

/-- The whole equipment-cost block: the legacy path runs only when the
service_equipment list is empty and both legacy fields are truthy; otherwise
the loop over service['equipment_list'] runs (over an empty list it yields 0). -/
def serviceEquipmentTotal (equipment_list : List Equipment) (service : Service) : ℚ :=
  if service.equipment_list = [] ∧ truthyOptNat service.equipment_id = true ∧
      truthyOptRat service.equipment_hours_used = true then
    legacyEquipmentCost equipment_list (service.equipment_id.getD 0)
      (service.equipment_hours_used.getD 0)
  else
    (service.equipment_list.map (serviceEquipmentRowCost equipment_list)).sum

/-- unit_cost of a consumable row: the custom price when set, otherwise
pack_cost / cases_per_pack / units_per_case. -/
def consumableUnitCost (c : ServiceConsumable) : ℚ :=
  match c.custom_unit_price with
  | some p => p
  | none => c.pack_cost / c.cases_per_pack / c.units_per_case

/-- Line cost of one consumable row: unit_cost * quantity. -/
def consumableLineCost (c : ServiceConsumable) : ℚ :=
  consumableUnitCost c * c.quantity

/-- unit_cost of a lab-material row: the custom price when set, otherwise the
material's own unit_cost. -/
def materialUnitCost (m : ServiceMaterial) : ℚ :=
  match m.custom_unit_price with
  | some p => p
  | none => m.unit_cost

/-- Line cost of one lab-material row: unit_cost * quantity. -/
def materialLineCost (m : ServiceMaterial) : ℚ :=
  materialUnitCost m * m.quantity

/-- The branch-dependent price fields set inside calculate_service_price. -/
structure PricingParts where
  doctor_fee : ℚ
  total_cost : ℚ
  profit_amount : ℚ
  price_before_vat : ℚ
  vat_amount : ℚ
  final_price : ℚ
  rounded_price : ℚ
deriving Repr, DecidableEq

/-- The percentage-mode branch: closed-form price from the costs without the
doctor fee, rounded first, then every component derived back from the rounded
price. -/
def percentagePricing (costs_without_doctor profit_percent vat_percent
    doctor_percentage_raw rounding : ℚ) : PricingParts :=
  let doctor_percentage := doctor_percentage_raw / 100
  let profit_multiplier := 1 + profit_percent / 100
  let vat_multiplier := 1 + vat_percent / 100
  let final_price_before_rounding :=
    costs_without_doctor * profit_multiplier * vat_multiplier / (1 - doctor_percentage)
  let rounded_price := roundToIncrement final_price_before_rounding rounding
  let doctor_fee := rounded_price * doctor_percentage
  let final_price := rounded_price
  let price_before_vat := final_price / vat_multiplier
  let vat_amount := final_price - price_before_vat
  let total_cost := price_before_vat / profit_multiplier
  let profit_amount := price_before_vat - total_cost
  ⟨doctor_fee, total_cost, profit_amount, price_before_vat, vat_amount,
    final_price, rounded_price⟩

/-- The hourly/fixed branch: cost-plus forward calculation, rounded last. -/
def standardPricing (doctor_fee total_cost profit_percent vat_percent
    rounding : ℚ) : PricingParts :=
  let profit_amount := total_cost * (profit_percent / 100)
  let price_before_vat := total_cost + profit_amount
  let vat_amount := price_before_vat * (vat_percent / 100)
  let final_price := price_before_vat + vat_amount
  let rounded_price := roundToIncrement final_price rounding
  ⟨doctor_fee, total_cost, profit_amount, price_before_vat, vat_amount,
    final_price, rounded_price⟩

/-- The record returned by calculate_service_price (numeric fields, before the
final round(x, 2) display rounding applied in the returned dict). -/
structure CalcResult where
  service_name : String
  chair_time_cost : ℚ
  doctor_fee : ℚ
  equipment_cost : ℚ
  consumables_cost : ℚ
  lab_materials_cost : ℚ
  materials_cost : ℚ
  total_cost : ℚ
  profit_percent : ℚ
  profit_amount : ℚ
  price_before_vat : ℚ
  vat_percent : ℚ
  vat_amount : ℚ
  final_price : ℚ
  rounded_price : ℚ
  chair_hourly_rate : ℚ
  effective_hours : ℚ
  current_price : Option ℚ
  monthly_fixed_costs : ℚ
  monthly_salaries : ℚ
  monthly_depreciation : ℚ
  total_monthly_fixed : ℚ
deriving Repr, DecidableEq

/-- The pricing pipeline of calculate_service_price, given the rows the
function reads from the database. -/
def computePrice (settings : GlobalSettings) (capacity : CapacitySettings)
    (fixed_costs : List FixedCost) (salaries : List Salary)
    (equipment_list : List Equipment) (service : Service) : CalcResult :=
  let total_fixed := totalFixedIncluded fixed_costs
  let total_salaries := totalSalariesIncluded salaries
  let fixed_depreciation := fixedDepreciation equipment_list
  let total_monthly_fixed := total_fixed + total_salaries + fixed_depreciation
  let effective_hours := effectiveHours capacity
  let chair_hourly_rate := chairHourlyRate total_monthly_fixed effective_hours
  let chair_time_cost := chair_hourly_rate * service.chair_time_hours
  let doctor_fee_initial :=
    match service.doctor_fee_type with
    | DoctorFeeType.hourly => service.doctor_hourly_fee * service.chair_time_hours
    | DoctorFeeType.fixed => service.doctor_fixed_fee
    | DoctorFeeType.percentage => 0
  let equipment_cost := serviceEquipmentTotal equipment_list service
  let consumables_cost := (service.consumables.map consumableLineCost).sum
  let lab_materials_cost := (service.materials.map materialLineCost).sum
  let materials_cost := consumables_cost + lab_materials_cost
  let total_cost_initial := chair_time_cost + doctor_fee_initial + equipment_cost + materials_cost
  let profit_percent :=
    if service.use_default_profit then settings.default_profit_percent
    else service.custom_profit_percent
  let parts :=
    if service.doctor_fee_type = DoctorFeeType.percentage then
      percentagePricing (chair_time_cost + equipment_cost + materials_cost)
        profit_percent settings.vat_percent service.doctor_percentage
        settings.rounding_nearest
    else
      standardPricing doctor_fee_initial total_cost_initial profit_percent
        settings.vat_percent settings.rounding_nearest
  { service_name := service.name
    chair_time_cost := chair_time_cost
    doctor_fee := parts.doctor_fee
    equipment_cost := equipment_cost
    consumables_cost := consumables_cost
    lab_materials_cost := lab_materials_cost
    materials_cost := materials_cost
    total_cost := parts.total_cost
    profit_percent := profit_percent
    profit_amount := parts.profit_amount
    price_before_vat := parts.price_before_vat
    vat_percent := settings.vat_percent
    vat_amount := parts.vat_amount
    final_price := parts.final_price
    rounded_price := parts.rounded_price
    chair_hourly_rate := chair_hourly_rate
    effective_hours := effective_hours
    current_price := service.current_price
    monthly_fixed_costs := total_fixed
    monthly_salaries := total_salaries
    monthly_depreciation := fixed_depreciation
    total_monthly_fixed := total_monthly_fixed }

/-- The round(x, 2) display rounding applied to every monetary field of the
returned dict. -/
def reportedResult (r : CalcResult) : CalcResult :=
  { r with
    chair_time_cost := round2 r.chair_time_cost
    doctor_fee := round2 r.doctor_fee
    equipment_cost := round2 r.equipment_cost
    consumables_cost := round2 r.consumables_cost
    lab_materials_cost := round2 r.lab_materials_cost
    materials_cost := round2 r.materials_cost
    total_cost := round2 r.total_cost
    profit_amount := round2 r.profit_amount
    price_before_vat := round2 r.price_before_vat
    vat_amount := round2 r.vat_amount
    final_price := round2 r.final_price
    rounded_price := round2 r.rounded_price
    chair_hourly_rate := round2 r.chair_hourly_rate
    effective_hours := round2 r.effective_hours
    monthly_fixed_costs := round2 r.monthly_fixed_costs
    monthly_salaries := round2 r.monthly_salaries
    monthly_depreciation := round2 r.monthly_depreciation
    total_monthly_fixed := round2 r.total_monthly_fixed }

/-- The consistent snapshot of one clinic's rows read during one calculation. -/
structure ClinicSnapshot where
  settings : GlobalSettings
  capacity : CapacitySettings
  fixed_costs : List FixedCost
  salaries : List Salary
  equipment_list : List Equipment
  services : List (Nat × Service)

/-- get_service_by_id: the service with the given id, or None. -/
def get_service_by_id (snap : ClinicSnapshot) (service_id : Nat) : Option Service :=
  (snap.services.find? (fun p => p.fst == service_id)).map Prod.snd

/-- calculate_service_price: returns None when the service does not exist,
otherwise the full breakdown dict. -/
def calculate_service_price (snap : ClinicSnapshot) (service_id : Nat) :
    Option CalcResult :=
  match get_service_by_id snap service_id with
  | none => none
  | some service =>
      some (reportedResult (computePrice snap.settings snap.capacity
        snap.fixed_costs snap.salaries snap.equipment_list service))

/-! ## Concrete inputs from the specification's scenarios -/

/-- Scenario D settings: VAT 0, default profit 40, round to nearest 1. -/
def settingsD : GlobalSettings := ⟨"EGP", 0, 40, 1⟩

/-- An all-zero capacity row (effective hours 0). -/
def capacityZero : CapacitySettings := ⟨0, 0, 0, 0⟩

/-- Scenario A capacity: 1 chair, 24 days, 8 hours, 80 percent utilization. -/
def capacityA : CapacitySettings := ⟨1, 24, 8, 80⟩

/-- Scenario D service: percentage doctor fee of 20, a single lab material
giving a base cost of 1000, default profit. -/
def serviceD : Service :=
  { name := "scenarioD"
    chair_time_hours := 0
    doctor_fee_type := DoctorFeeType.percentage
    doctor_hourly_fee := 0
    doctor_fixed_fee := 0
    doctor_percentage := 20
    use_default_profit := true
    custom_profit_percent := 0
    equipment_id := none
    equipment_hours_used := none
    equipment_list := []
    consumables := []
    materials := [⟨1000, none, 1⟩]
    current_price := none }

/-- Settings for the over-100-percent example: VAT 0, default profit 40,
no rounding. -/
def settingsC3 : GlobalSettings := ⟨"EGP", 0, 40, 0⟩

/-- The over-100-percent service: like scenario D but with a doctor
percentage of 150. -/
def serviceC3 : Service := { serviceD with doctor_percentage := 150 }

/-- Snapshot holding the over-100-percent service under id 1. -/
def snapC3 : ClinicSnapshot := ⟨settingsC3, capacityZero, [], [], [], [(1, serviceC3)]⟩

/-- An empty clinic snapshot (no services at all). -/
def snapEmpty : ClinicSnapshot := ⟨settingsD, capacityZero, [], [], [], []⟩

/-- Scenario C service: hourly doctor fee of 400, 0.75 chair hours. -/
def serviceH : Service :=
  { serviceD with
    name := "scenarioC"
    chair_time_hours := 3/4
    doctor_fee_type := DoctorFeeType.hourly
    doctor_hourly_fee := 400
    doctor_percentage := 0 }

/-- A fixed-allocation equipment row: 100000 over 10 years. -/
def equipmentFixed : Equipment := ⟨1, 100000, 10, AllocationType.fixed, none⟩

/-- A per-hour equipment row: 12000 over 1 year, 100 usage hours per month. -/
def equipmentPerHour : Equipment := ⟨2, 12000, 1, AllocationType.perHour, some 100⟩

/-- A service using the per-hour equipment through a service_equipment row. -/
def serviceE : Service :=
  { serviceD with
    name := "equipmentUser"
    doctor_fee_type := DoctorFeeType.fixed
    equipment_list := [⟨2, 3⟩]
    materials := [] }

/-- A consumable row with a custom unit price set. -/
def consumableCustom : ServiceConsumable := ⟨500, 5, 10, some 7, 4⟩

/-- A lab-material row with a custom unit price set. -/
def materialCustom : ServiceMaterial := ⟨250, some 30, 2⟩

/-- Included and excluded fixed-cost rows. -/
def fixedCostsW : List FixedCost := [⟨20000, true⟩, ⟨9999, false⟩]

/-- Included and excluded salary rows. -/
def salariesW : List Salary := [⟨8000, true⟩, ⟨1234, false⟩]

/-! ## Helper lemmas -/

/-- Python round of an integer value is that integer. -/
lemma pyRound_intCast (n : ℤ) : pyRound (n : ℚ) = n := by
  simp only [pyRound, Int.floor_intCast, sub_self]
  norm_num

/-- round(x, 2) of an integer value is that integer. -/
lemma round2_intCast (n : ℤ) : round2 (n : ℚ) = n := by
  have h : ((n : ℚ) * 100) = ((n * 100 : ℤ) : ℚ) := by push_cast; ring
  rw [round2, h, pyRound_intCast]
  push_cast
  rw [mul_div_assoc]
  norm_num

/-- Rounding an integer value to the increment 1 leaves it unchanged. -/
lemma roundToIncrement_one_intCast (n : ℤ) : roundToIncrement (n : ℚ) 1 = n := by
  rw [roundToIncrement, if_pos (by norm_num : (0 : ℚ) < 1), div_one, pyRound_intCast,
    mul_one]

/-- The legacy loop keeps its accumulator whenever every equipment row has the
"fixed" allocation type. -/
lemma foldl_legacyEquipmentStep_all_fixed (eqs : List Equipment) (eid : Nat)
    (hrs : ℚ) (acc : ℚ)
    (hall : ∀ e ∈ eqs, e.allocation_type = AllocationType.fixed) :
    eqs.foldl (legacyEquipmentStep eid hrs) acc = acc := by
  induction eqs generalizing acc with
  | nil => rfl
  | cons e tl ih =>
      have he : e.allocation_type = AllocationType.fixed := hall e (by simp)
      have hstep : legacyEquipmentStep eid hrs acc e = acc := by
        rw [legacyEquipmentStep, if_neg]
        rintro ⟨-, hper⟩
        rw [he] at hper
        exact AllocationType.noConfusion hper
      rw [List.foldl_cons, hstep]
      exact ih acc (fun x hx => hall x (by simp [hx]))

/-- Scenario D evaluation: the rounded price is 1750. -/
lemma scenarioD_rounded :
    (computePrice settingsD capacityZero [] [] [] serviceD).rounded_price = 1750 := by
  have harg :
      ((chairHourlyRate
            (totalFixedIncluded [] + totalSalariesIncluded [] + fixedDepreciation [])
            (effectiveHours capacityZero) * serviceD.chair_time_hours +
          serviceEquipmentTotal [] serviceD +
          ((serviceD.consumables.map consumableLineCost).sum +
            (serviceD.materials.map materialLineCost).sum)) *
        (1 + settingsD.default_profit_percent / 100) *
        (1 + settingsD.vat_percent / 100) /
        (1 - serviceD.doctor_percentage / 100)) = ((1750 : ℤ) : ℚ) := by
    norm_num [totalFixedIncluded, totalSalariesIncluded, fixedDepreciation,
      effectiveHours, chairHourlyRate, serviceEquipmentTotal, truthyOptNat,
      truthyOptRat, consumableLineCost, materialLineCost, materialUnitCost,
      capacityZero, serviceD, settingsD]
  have hproj :
      (computePrice settingsD capacityZero [] [] [] serviceD).rounded_price =
        roundToIncrement
          ((chairHourlyRate
                (totalFixedIncluded [] + totalSalariesIncluded [] + fixedDepreciation [])
                (effectiveHours capacityZero) * serviceD.chair_time_hours +
              serviceEquipmentTotal [] serviceD +
              ((serviceD.consumables.map consumableLineCost).sum +
                (serviceD.materials.map materialLineCost).sum)) *
            (1 + settingsD.default_profit_percent / 100) *
            (1 + settingsD.vat_percent / 100) /
            (1 - serviceD.doctor_percentage / 100))
          settingsD.rounding_nearest := rfl
  rw [hproj, harg]
  have hone : settingsD.rounding_nearest = 1 := rfl
  rw [hone, roundToIncrement_one_intCast]
  norm_num

/-- Scenario D evaluation: the back-derived total cost is 1250. -/
lemma scenarioD_total :
    (computePrice settingsD capacityZero [] [] [] serviceD).total_cost = 1250 := by
  have hdef :
      (computePrice settingsD capacityZero [] [] [] serviceD).total_cost =
        (computePrice settingsD capacityZero [] [] [] serviceD).rounded_price /
          (1 + settingsD.vat_percent / 100) /
          (1 + settingsD.default_profit_percent / 100) := rfl
  rw [hdef, scenarioD_rounded]
  norm_num [settingsD]

/-- Over-100-percent evaluation: the unrounded, unreported rounded_price of the
pipeline is the negative number -2800. -/
lemma snapC3_inner :
    (computePrice settingsC3 capacityZero [] [] [] serviceC3).rounded_price = -2800 := by
  have hproj :
      (computePrice settingsC3 capacityZero [] [] [] serviceC3).rounded_price =
        roundToIncrement
          ((chairHourlyRate
                (totalFixedIncluded [] + totalSalariesIncluded [] + fixedDepreciation [])
                (effectiveHours capacityZero) * serviceC3.chair_time_hours +
              serviceEquipmentTotal [] serviceC3 +
              ((serviceC3.consumables.map consumableLineCost).sum +
                (serviceC3.materials.map materialLineCost).sum)) *
            (1 + settingsC3.default_profit_percent / 100) *
            (1 + settingsC3.vat_percent / 100) /
            (1 - serviceC3.doctor_percentage / 100))
          settingsC3.rounding_nearest := rfl
  rw [hproj]
  norm_num [totalFixedIncluded, totalSalariesIncluded, fixedDepreciation,
    effectiveHours, chairHourlyRate, serviceEquipmentTotal, truthyOptNat,
    truthyOptRat, consumableLineCost, materialLineCost, materialUnitCost,
    capacityZero, serviceC3, serviceD, settingsC3, roundToIncrement]

/-! ## Claim theorems -/

/-- Claim C1: in percentage mode with pct < 1, the rounded price is the
increment-rounding of (base * profit_mult * vat_mult) / (1 - pct) with base the
sum of chair-time, equipment and materials costs, and price_before_vat,
vat_amount, total_cost and profit_amount are back-derived from the rounded
price. -/
theorem percentage_mode_back_derivation
    (settings : GlobalSettings) (capacity : CapacitySettings)
    (fixed_costs : List FixedCost) (salaries : List Salary)
    (equipment_list : List Equipment) (service : Service) (r : CalcResult)
    (hr : r = computePrice settings capacity fixed_costs salaries equipment_list service)
    (hmode : service.doctor_fee_type = DoctorFeeType.percentage)
    (hpct : service.doctor_percentage / 100 < 1) :
    r.rounded_price =
      roundToIncrement
        ((r.chair_time_cost + r.equipment_cost + r.materials_cost) *
            (1 + r.profit_percent / 100) * (1 + settings.vat_percent / 100) /
          (1 - service.doctor_percentage / 100))
        settings.rounding_nearest ∧
    r.price_before_vat = r.rounded_price / (1 + settings.vat_percent / 100) ∧
    r.vat_amount = r.rounded_price - r.price_before_vat ∧
    r.total_cost = r.price_before_vat / (1 + r.profit_percent / 100) ∧
    r.profit_amount = r.price_before_vat - r.total_cost := by
  subst hr
  simp only [computePrice, percentagePricing, hmode, if_true, reduceIte]
  exact ⟨trivial, trivial, trivial, trivial, trivial⟩

/-- Claim C2: in percentage mode with pct < 1, the doctor fee equals the
rounded price times doctor_percentage / 100. -/
theorem doctor_fee_exact_share
    (settings : GlobalSettings) (capacity : CapacitySettings)
    (fixed_costs : List FixedCost) (salaries : List Salary)
    (equipment_list : List Equipment) (service : Service) (r : CalcResult)
    (hr : r = computePrice settings capacity fixed_costs salaries equipment_list service)
    (hmode : service.doctor_fee_type = DoctorFeeType.percentage)
    (hpct : service.doctor_percentage / 100 < 1) :
    r.doctor_fee = r.rounded_price * (service.doctor_percentage / 100) := by
  subst hr
  simp only [computePrice, percentagePricing, hmode, if_true, reduceIte]

/-- Claim C9: pricing a service id that does not exist in the clinic snapshot
yields the "not found" outcome (None), never a priced record. -/
theorem missing_service_not_found (snap : ClinicSnapshot) (sid : Nat)
    (h : get_service_by_id snap sid = none) :
    calculate_service_price snap sid = none := by
  simp only [calculate_service_price, h]

/-- Claim C4: monthly overhead is the sum of included fixed-cost amounts,
included salaries, and straight-line depreciation of fixed-allocation
equipment; rows with the included flag cleared contribute nothing. -/
theorem monthly_overhead_sum
    (settings : GlobalSettings) (capacity : CapacitySettings)
    (fixed_costs : List FixedCost) (salaries : List Salary)
    (equipment_list : List Equipment) (service : Service) (r : CalcResult)
    (hr : r = computePrice settings capacity fixed_costs salaries equipment_list service)
    (hlife : ∀ e ∈ equipment_list,
      e.allocation_type = AllocationType.fixed → 0 < e.life_years) :
    r.total_monthly_fixed =
      ((fixed_costs.filter (fun c => c.included)).map (fun c => c.monthly_amount)).sum +
        ((salaries.filter (fun s => s.included)).map (fun s => s.monthly_salary)).sum +
        ((equipment_list.filter
            (fun e => e.allocation_type = AllocationType.fixed)).map
          (fun e => e.purchase_cost / (e.life_years * 12))).sum ∧
    r.total_monthly_fixed =
      (computePrice settings capacity (fixed_costs.filter (fun c => c.included))
        (salaries.filter (fun s => s.included)) equipment_list
        service).total_monthly_fixed := by
  subst hr
  constructor
  · rfl
  · simp only [computePrice, totalFixedIncluded, totalSalariesIncluded,
      List.filter_filter, Bool.and_self]

/-- Claim C5: the overhead-per-hour rate is 0 whenever effective hours are 0
(no division fault), and monthly overhead divided by effective hours whenever
effective hours are positive. -/
theorem overhead_rate_zero_guard
    (settings : GlobalSettings) (capacity : CapacitySettings)
    (fixed_costs : List FixedCost) (salaries : List Salary)
    (equipment_list : List Equipment) (service : Service) (r : CalcResult)
    (hr : r = computePrice settings capacity fixed_costs salaries equipment_list service) :
    (r.effective_hours = 0 → r.chair_hourly_rate = 0) ∧
    (0 < r.effective_hours →
      r.chair_hourly_rate = r.total_monthly_fixed / r.effective_hours) := by
  subst hr
  simp only [computePrice]
  constructor
  · intro h
    simp [chairHourlyRate, h]
  · intro h
    simp [chairHourlyRate, h]

/-- Claim C6: a custom unit price on a junction row overrides the computed
default for that line, for both consumables and lab materials; the service's
consumables and lab-materials costs are the sums of the per-line costs. -/
theorem custom_unit_price_wins
    (c : ServiceConsumable) (m : ServiceMaterial) (p q : ℚ)
    (hc : c.custom_unit_price = some p) (hm : m.custom_unit_price = some q)
    (settings : GlobalSettings) (capacity : CapacitySettings)
    (fixed_costs : List FixedCost) (salaries : List Salary)
    (equipment_list : List Equipment) (service : Service) (r : CalcResult)
    (hr : r = computePrice settings capacity fixed_costs salaries equipment_list service) :
    consumableLineCost c = p * c.quantity ∧
    materialLineCost m = q * m.quantity ∧
    r.consumables_cost = (service.consumables.map consumableLineCost).sum ∧
    r.lab_materials_cost = (service.materials.map materialLineCost).sum := by
  subst hr
  refine ⟨?_, ?_, ?_, ?_⟩
  · simp [consumableLineCost, consumableUnitCost, hc]
  · simp [materialLineCost, materialUnitCost, hm]
  · simp only [computePrice]
  · simp only [computePrice]

/-- Claim C7: equipment with the "fixed" allocation type contributes nothing to
a service's per-hour equipment cost (in both the junction-row path and the
legacy path), while "per-hour" equipment with positive usage hours contributes
its hourly depreciation rate times the hours used (and zero when the usage
hours are absent or zero). -/
theorem fixed_allocation_contributes_nothing :
    (∀ (e : Equipment) (hrs : ℚ), e.allocation_type = AllocationType.fixed →
      perHourLineCost e hrs = 0) ∧
    (∀ (e : Equipment) (hrs u : ℚ), e.allocation_type = AllocationType.perHour →
      e.monthly_usage_hours = some u → 0 < u →
      perHourLineCost e hrs = e.purchase_cost / (e.life_years * 12) / u * hrs) ∧
    (∀ (e : Equipment) (hrs : ℚ), e.allocation_type = AllocationType.perHour →
      (e.monthly_usage_hours = none ∨ e.monthly_usage_hours = some 0) →
      perHourLineCost e hrs = 0) ∧
    (∀ (equipment_list : List Equipment) (eid : Nat) (hrs : ℚ),
      (∀ e ∈ equipment_list, e.allocation_type = AllocationType.fixed) →
      legacyEquipmentCost equipment_list eid hrs = 0) ∧
    (∀ (settings : GlobalSettings) (capacity : CapacitySettings)
      (fixed_costs : List FixedCost) (salaries : List Salary)
      (equipment_list : List Equipment) (service : Service),
      service.equipment_list ≠ [] →
      (computePrice settings capacity fixed_costs salaries equipment_list
          service).equipment_cost =
        (service.equipment_list.map (serviceEquipmentRowCost equipment_list)).sum) := by
  refine ⟨?_, ?_, ?_, ?_, ?_⟩
  · intro e hrs h
    simp [perHourLineCost, h]
  · intro e hrs u halloc husage hu
    simp [perHourLineCost, halloc, husage, hu, equipmentMonthlyDepreciation]
  · intro e hrs halloc husage
    rcases husage with h | h <;> simp [perHourLineCost, halloc, h]
  · intro equipment_list eid hrs hall
    exact foldl_legacyEquipmentStep_all_fixed equipment_list eid hrs 0 hall
  · intro settings capacity fixed_costs salaries equipment_list service hne
    simp only [computePrice, serviceEquipmentTotal]
    rw [if_neg]
    rintro ⟨h, -⟩
    exact hne h

/-- Claim C8: in hourly or fixed doctor-fee mode the result composes cost-plus
forward: total cost is the sum of the four cost components, profit and VAT are
applied multiplicatively, and the final price is rounded to the increment with
a nonpositive increment meaning no rounding; the doctor fee is the hourly rate
times chair-time hours in hourly mode and the flat amount in fixed mode. -/
theorem standard_mode_composition
    (settings : GlobalSettings) (capacity : CapacitySettings)
    (fixed_costs : List FixedCost) (salaries : List Salary)
    (equipment_list : List Equipment) (service : Service) (r : CalcResult)
    (hr : r = computePrice settings capacity fixed_costs salaries equipment_list service)
    (hmode : service.doctor_fee_type = DoctorFeeType.hourly ∨
      service.doctor_fee_type = DoctorFeeType.fixed) :
    r.total_cost = r.chair_time_cost + r.doctor_fee + r.equipment_cost + r.materials_cost ∧
    r.profit_amount = r.total_cost * (r.profit_percent / 100) ∧
    r.price_before_vat = r.total_cost + r.profit_amount ∧
    r.vat_amount = r.price_before_vat * (settings.vat_percent / 100) ∧
    r.final_price = r.price_before_vat + r.vat_amount ∧
    r.rounded_price = roundToIncrement r.final_price settings.rounding_nearest ∧
    (settings.rounding_nearest ≤ 0 → r.rounded_price = r.final_price) ∧
    (service.doctor_fee_type = DoctorFeeType.hourly →
      r.doctor_fee = service.doctor_hourly_fee * service.chair_time_hours) ∧
    (service.doctor_fee_type = DoctorFeeType.fixed →
      r.doctor_fee = service.doctor_fixed_fee) := by
  subst hr
  have hne : service.doctor_fee_type ≠ DoctorFeeType.percentage := by
    rcases hmode with h | h <;> rw [h] <;> intro hc <;> exact DoctorFeeType.noConfusion hc
  refine ⟨?_, ?_, ?_, ?_, ?_, ?_, fun hI => ?_, fun hh => ?_, fun hf => ?_⟩ <;>
    simp only [computePrice, standardPricing, if_neg hne]
  · unfold roundToIncrement
    rw [if_neg (not_lt.mpr hI)]
  · simp only [hh]
  · simp only [hf]

/-- Claim C10: with no service_equipment rows, the legacy single-equipment
fallback runs only when both the legacy equipment_id and equipment_hours_used
are present and nonzero; otherwise (or when the referenced equipment is not
per-hour allocated) the equipment cost is 0. -/
theorem legacy_equipment_fallback
    (settings : GlobalSettings) (capacity : CapacitySettings)
    (fixed_costs : List FixedCost) (salaries : List Salary)
    (equipment_list : List Equipment) (service : Service) (r : CalcResult)
    (hr : r = computePrice settings capacity fixed_costs salaries equipment_list service)
    (hempty : service.equipment_list = []) :
    (service.equipment_id = none ∨ service.equipment_id = some 0 ∨
      service.equipment_hours_used = none ∨ service.equipment_hours_used = some 0 →
      r.equipment_cost = 0) ∧
    (∀ (i : Nat) (hrs : ℚ), service.equipment_id = some i → i ≠ 0 →
      service.equipment_hours_used = some hrs → hrs ≠ 0 →
      r.equipment_cost = legacyEquipmentCost equipment_list i hrs) ∧
    ((∀ e ∈ equipment_list, e.allocation_type = AllocationType.fixed) →
      r.equipment_cost = 0) := by
  subst hr
  simp only [computePrice]
  refine ⟨?_, ?_, ?_⟩
  · intro hd
    rcases hd with h | h | h | h <;>
      simp [serviceEquipmentTotal, truthyOptNat, truthyOptRat, h, hempty]
  · intro i hrs hid hi hhrs hh
    simp [serviceEquipmentTotal, truthyOptNat, truthyOptRat, hid, hi, hhrs, hh, hempty]
  · intro hall
    simp only [serviceEquipmentTotal]
    split
    · exact foldl_legacyEquipmentStep_all_fixed equipment_list _ _ 0 hall
    · simp [hempty]

/-- Claim C3, behavior of the code at the failing input: a percentage-mode
doctor fee of 150 percent is not rejected; calculate_service_price returns a
priced record whose rounded price is the negative number -2800. -/
theorem percentage_over_100_emits_negative_price :
    (calculate_service_price snapC3 1).map CalcResult.rounded_price = some (-2800) ∧
    (-2800 : ℚ) < 0 := by
  have hs : get_service_by_id snapC3 1 = some serviceC3 := rfl
  have hrep : round2 (-2800 : ℚ) = -2800 := by
    have h := round2_intCast (-2800)
    push_cast at h
    exact h
  constructor
  · simp only [calculate_service_price, hs, Option.map_some', reportedResult]
    show some (round2 ((computePrice settingsC3 capacityZero [] [] []
      serviceC3).rounded_price)) = some (-2800)
    rw [snapC3_inner, hrep]
  · norm_num

/-! ## Witnesses -/

/-- Witness for C1 at scenario D: rounded price 1750, back-derived total cost
1250, and the back-derivation equality instantiated. -/
theorem percentage_mode_back_derivation_witness :
    (computePrice settingsD capacityZero [] [] [] serviceD).rounded_price = 1750 ∧
    (computePrice settingsD capacityZero [] [] [] serviceD).total_cost = 1250 ∧
    (computePrice settingsD capacityZero [] [] [] serviceD).price_before_vat =
      (computePrice settingsD capacityZero [] [] [] serviceD).rounded_price /
        (1 + settingsD.vat_percent / 100) := by
  refine ⟨scenarioD_rounded, scenarioD_total, ?_⟩
  exact (percentage_mode_back_derivation settingsD capacityZero [] [] [] serviceD _
    rfl rfl (by norm_num [serviceD])).2.1

/-- Witness for C2 at scenario D. -/
theorem doctor_fee_exact_share_witness :
    (computePrice settingsD capacityZero [] [] [] serviceD).doctor_fee =
      (computePrice settingsD capacityZero [] [] [] serviceD).rounded_price *
        (serviceD.doctor_percentage / 100) :=
  doctor_fee_exact_share settingsD capacityZero [] [] [] serviceD _ rfl rfl
    (by norm_num [serviceD])

/-- Witness for C4 on a pool with one excluded fixed cost and one excluded
salary. -/
theorem monthly_overhead_sum_witness :
    (computePrice settingsD capacityA fixedCostsW salariesW [equipmentFixed]
        serviceH).total_monthly_fixed =
      ((fixedCostsW.filter (fun c => c.included)).map (fun c => c.monthly_amount)).sum +
        ((salariesW.filter (fun s => s.included)).map (fun s => s.monthly_salary)).sum +
        (([equipmentFixed].filter
            (fun e => e.allocation_type = AllocationType.fixed)).map
          (fun e => e.purchase_cost / (e.life_years * 12))).sum :=
  (monthly_overhead_sum settingsD capacityA fixedCostsW salariesW [equipmentFixed]
    serviceH _ rfl
    (by
      intro e he hf
      rcases List.mem_singleton.mp he with rfl
      norm_num [equipmentFixed])).1

/-- Witness for C5: rate 0 at zero effective hours, and the quotient form at
scenario A capacity. -/
theorem overhead_rate_zero_guard_witness :
    (computePrice settingsD capacityZero [] [] [] serviceD).chair_hourly_rate = 0 ∧
    (computePrice settingsD capacityA fixedCostsW salariesW [equipmentFixed]
        serviceH).chair_hourly_rate =
      (computePrice settingsD capacityA fixedCostsW salariesW [equipmentFixed]
          serviceH).total_monthly_fixed /
        (computePrice settingsD capacityA fixedCostsW salariesW [equipmentFixed]
            serviceH).effective_hours := by
  constructor
  · exact (overhead_rate_zero_guard settingsD capacityZero [] [] [] serviceD _ rfl).1
      (by
        show effectiveHours capacityZero = 0
        norm_num [effectiveHours, capacityZero])
  · exact (overhead_rate_zero_guard settingsD capacityA fixedCostsW salariesW
      [equipmentFixed] serviceH _ rfl).2
      (by
        show 0 < effectiveHours capacityA
        norm_num [effectiveHours, capacityA])

/-- Witness for C6 on rows carrying custom unit prices 7 and 30. -/
theorem custom_unit_price_wins_witness :
    consumableLineCost consumableCustom = 7 * consumableCustom.quantity ∧
    materialLineCost materialCustom = 30 * materialCustom.quantity := by
  have h := custom_unit_price_wins consumableCustom materialCustom 7 30 rfl rfl
    settingsD capacityZero [] [] [] serviceD _ rfl
  exact ⟨h.1, h.2.1⟩

/-- Witness for C7 on one fixed and one per-hour equipment row. -/
theorem fixed_allocation_contributes_nothing_witness :
    perHourLineCost equipmentFixed 2 = 0 ∧
    perHourLineCost equipmentPerHour 3 =
      equipmentPerHour.purchase_cost / (equipmentPerHour.life_years * 12) / 100 * 3 ∧
    legacyEquipmentCost [equipmentFixed] 1 5 = 0 ∧
    (computePrice settingsD capacityZero [] [] [equipmentPerHour]
        serviceE).equipment_cost =
      (serviceE.equipment_list.map (serviceEquipmentRowCost [equipmentPerHour])).sum := by
  have h := fixed_allocation_contributes_nothing
  refine ⟨h.1 equipmentFixed 2 rfl, ?_, ?_, ?_⟩
  · exact h.2.1 equipmentPerHour 3 100 rfl rfl (by norm_num)
  · exact h.2.2.2.1 [equipmentFixed] 1 5
      (by
        intro e he
        rcases List.mem_singleton.mp he with rfl
        rfl)
  · exact h.2.2.2.2 settingsD capacityZero [] [] [equipmentPerHour] serviceE
      (by simp [serviceE])

/-- Witness for C8 at the scenario C hourly service. -/
theorem standard_mode_composition_witness :
    (computePrice settingsD capacityA fixedCostsW salariesW [] serviceH).doctor_fee =
      serviceH.doctor_hourly_fee * serviceH.chair_time_hours ∧
    (computePrice settingsD capacityA fixedCostsW salariesW [] serviceH).total_cost =
      (computePrice settingsD capacityA fixedCostsW salariesW [] serviceH).chair_time_cost +
        (computePrice settingsD capacityA fixedCostsW salariesW [] serviceH).doctor_fee +
        (computePrice settingsD capacityA fixedCostsW salariesW [] serviceH).equipment_cost +
        (computePrice settingsD capacityA fixedCostsW salariesW [] serviceH).materials_cost := by
  have h := standard_mode_composition settingsD capacityA fixedCostsW salariesW []
    serviceH _ rfl (Or.inl rfl)
  exact ⟨h.2.2.2.2.2.2.2.1 rfl, h.1⟩

/-- Witness for C9 on an empty snapshot. -/
theorem missing_service_not_found_witness :
    calculate_service_price snapEmpty 1 = none :=
  missing_service_not_found snapEmpty 1 rfl

/-- Witness for C10: with no junction rows and no legacy equipment_id the
equipment cost is zero. -/
theorem legacy_equipment_fallback_witness :
    (computePrice settingsD capacityZero [] [] [equipmentPerHour]
        serviceD).equipment_cost = 0 :=
  (legacy_equipment_fallback settingsD capacityZero [] [] [equipmentPerHour]
    serviceD _ rfl rfl).1 (Or.inl rfl)

end DentalPricing
